import Mathlib

/-!
Verification of the AETB configuration manager (`aetbconfig.py`).

The module defines two pydantic models (`TradingConfig`, `EvolutionConfig`)
and a `Config` class that loads a JSON configuration file, falls back to a
hardcoded default mapping, and optionally connects to Firebase.

Shallow embedding:
* JSON values (`Dict[str, Any]` plus nested scalars) are the inductive
  `JValue`; Python ints and floats are kept as distinct constructors
  (`json.load` distinguishes them), with floats as exact rationals since the
  program only stores and compares the literals, never computes with them.
* The environment is an explicit `World`: the file system (`files`), whether
  a write to a given path succeeds (`writeOk`), and whether Firebase
  initialization succeeds (`firebaseOk`).
* A Python `try` block is embedded as an `Except`-valued *body* function
  (`.error` = the body raised); the enclosing method is a total function
  applying the `except` handler, so "no exception propagates to the caller"
  is visible as totality plus the handler's result.
* The mutable object state (`config_path`, `_config_cache`,
  `_firebase_initialized`) is the structure `ConfigState`; the logger only
  emits messages and is omitted.
-/

/-! Exact values of the Python float literals appearing in the source,
written as already-reduced fractions (`Rat.mk'`) so that the kernel can
evaluate comparisons and equalities on them. -/

/-- The float literal `0.1`. -/
def f0_1 : Rat := ⟨1, 10, by decide, by norm_num⟩

/-- The float literal `0.7`. -/
def f0_7 : Rat := ⟨7, 10, by decide, by norm_num⟩

/-- The float literal `0.02`. -/
def f0_02 : Rat := ⟨1, 50, by decide, by norm_num⟩

/-- The float literal `0.05`. -/
def f0_05 : Rat := ⟨1, 20, by decide, by norm_num⟩

/-- The float literal `0.03`. -/
def f0_03 : Rat := ⟨3, 100, by decide, by norm_num⟩

/-- The float literal `0.5` (used in the spec's mutation-rate example). -/
def f0_5 : Rat := ⟨1, 2, by decide, by norm_num⟩

/-- The float literal `1.5` (used in the spec's mutation-rate example). -/
def f1_5 : Rat := ⟨3, 2, by decide, by norm_num⟩

/-- A JSON value as produced by Python's `json.load`.  `malformed` file
contents are modelled separately (see `JFile`). -/
inductive JValue where
  | null : JValue
  | bool : Bool → JValue
  | int : Int → JValue
  | num : Rat → JValue
  | str : String → JValue
  | arr : List JValue → JValue
  | obj : List (String × JValue) → JValue

/-- Contents of a file on disk, as seen by `json.load`: either well-formed
JSON, or contents on which `open`/`json.load` raises (malformed syntax or an
unreadable file). -/
inductive JFile where
  | wellFormed : JValue → JFile
  | malformed : JFile

/-- The external environment of the `Config` class: the file system and the
outcome of the two fallible external operations (writing a file, initializing
Firebase). -/
structure World where
  files : String → Option JFile
  writeOk : String → Bool
  firebaseOk : Bool

/-- `os.path.exists` on this world. -/
def World.pathExists (w : World) (p : String) : Bool :=
  (w.files p).isSome

/-- Overwrite the file at `p` (the effect of a successful
`open(p, 'w'); json.dump(v, f)`). -/
def World.setFile (w : World) (p : String) (jf : JFile) : World :=
  { w with files := fun q => if q = p then some jf else w.files q }

/-- `json.load` on the opened file: returns the parsed value, or raises
(`.error`) on malformed contents. -/
def jsonLoad : JFile → Except Unit JValue
  | .wellFormed v => .ok v
  | .malformed => .error ()

/-- `open(p, 'w'); json.dump(v, f, indent=2)`: succeeds and updates the file
system, or raises (`.error`) when the write fails. -/
def fileWrite (w : World) (p : String) (v : JValue) : Except Unit World :=
  if w.writeOk p then .ok (w.setFile p (.wellFormed v)) else .error ()

/-- The mutable fields of a `Config` instance: `config_path`,
`_config_cache` and `_firebase_initialized` (the latter named without the
trailing Python spelling). -/
structure ConfigState where
  config_path : String
  config_cache : JValue
  firebase_ready : Bool

namespace Config

/-- The hardcoded `"trading"` section of `_create_default_config`
(`initial_capital` is the float `10000.0`). -/
def defaultTrading : JValue :=
  .obj [("exchange", .str "binance"),
        ("symbol", .str "BTC/USDT"),
        ("timeframe", .str "1h"),
        ("initial_capital", .num 10000)]

/-- The hardcoded `"evolution"` section of `_create_default_config`
(rates are the floats `0.1` and `0.7`). -/
def defaultEvolution : JValue :=
  .obj [("population_size", .int 50),
        ("generations", .int 100),
        ("mutation_rate", .num f0_1),
        ("crossover_rate", .num f0_7),
        ("elite_count", .int 5)]

/-- The hardcoded `"risk"` section of `_create_default_config`
(the floats `0.1`, `0.02`, `0.05`, `0.03`). -/
def defaultRisk : JValue :=
  .obj [("max_position_size", .num f0_1),
        ("stop_loss_pct", .num f0_02),
        ("take_profit_pct", .num f0_05),
        ("max_daily_loss", .num f0_03)]

/-- The full default mapping assigned to `self._config_cache` by
`_create_default_config`. -/
def defaultConfig : JValue :=
  .obj [("trading", defaultTrading),
        ("evolution", defaultEvolution),
        ("risk", defaultRisk)]

/-- `Config._create_default_config`: sets the cache to `defaultConfig`, then
tries to save it; a failing write is caught (logged) and leaves both the
cache and the file system as they were at that point. -/
def create_default_config (w : World) (st : ConfigState) : ConfigState × World :=
  let st' := { st with config_cache := defaultConfig }
  match fileWrite w st'.config_path defaultConfig with
  | .ok w' => (st', w')
  | .error _ => (st', w)

/-- The `try` body of `Config._load_local_config`: if the file exists, parse
it (propagating a parse exception); otherwise build the defaults
(`_create_default_config` catches its own write failure, so it cannot
raise). -/
def load_body (w : World) (st : ConfigState) : Except Unit (ConfigState × World) :=
  match w.files st.config_path with
  | some jf => do
      let v ← jsonLoad jf
      pure ({ st with config_cache := v }, w)
  | none => pure (create_default_config w st)

/-- `Config._load_local_config`: runs the `try` body; any exception is
caught (logged) and answered by `_create_default_config`. -/
def load_local_config (w : World) (st : ConfigState) : ConfigState × World :=
  match load_body w st with
  | .ok r => r
  | .error _ => create_default_config w st

/-- The `try` body of `Config._init_firebase`:
`credentials.Certificate(creds_path); firebase_admin.initialize_app(cred)`
raises exactly when the environment says Firebase setup fails. -/
def init_firebase_body (w : World) : Except Unit Unit :=
  if w.firebaseOk then .ok () else .error ()

/-- `Config._init_firebase`: on success sets `_firebase_initialized = True`;
any exception is caught (logged) and it is set to `False`. -/
def init_firebase (_creds_path : String) (w : World) (st : ConfigState) : ConfigState :=
  match init_firebase_body w with
  | .ok _ => { st with firebase_ready := true }
  | .error _ => { st with firebase_ready := false }

/-- `Config.__init__`: starts from an empty cache, loads the local config,
then calls `_init_firebase` only when a credentials path is supplied, is
truthy (Python: a non-empty string) and exists.  The final `Bool` records
whether `_init_firebase` was invoked. -/
def init (config_path : String) (firebase_creds_path : Option String) (w : World) :
    ConfigState × World × Bool :=
  let st0 : ConfigState := ⟨config_path, .obj [], false⟩
  let lw := load_local_config w st0
  match firebase_creds_path with
  | some p =>
      if !p.isEmpty && lw.2.pathExists p then
        (init_firebase p lw.2 lw.1, lw.2, true)
      else
        (lw.1, lw.2, false)
  | none => (lw.1, lw.2, false)

end Config

/-- The pydantic model `TradingConfig` (floats as exact rationals). -/
structure TradingConfig where
  exchange : String
  symbol : String
  timeframe : String
  initial_capital : Rat
deriving DecidableEq

namespace TradingConfig

/-- The `valid_exchanges` list of the `validate_exchange` validator. -/
def valid_exchanges : List String := ["binance", "coinbase", "kraken", "bybit"]

/-- The declared field defaults of `TradingConfig`
(`"binance"`, `"BTC/USDT"`, `"1h"`, `10000.0`). -/
def defaults : TradingConfig :=
  ⟨"binance", "BTC/USDT", "1h", 10000⟩

/-- Constructing a `TradingConfig` from field values.  Pydantic collects every
violated constraint — the `gt=0` bound on `initial_capital` and the
`validate_exchange` allow-list check — into one `ValidationError`
(`.error` with the list of messages); otherwise the model is built. -/
def validate (exchange symbol timeframe : String) (initial_capital : Rat) :
    Except (List String) TradingConfig :=
  let errs :=
    (if exchange ∈ valid_exchanges then []
     else ["Exchange must be one of " ++ String.intercalate ", " valid_exchanges]) ++
    (if 0 < initial_capital then []
     else ["initial_capital: ensure this value is greater than 0"])
  if errs.isEmpty then .ok ⟨exchange, symbol, timeframe, initial_capital⟩
  else .error errs

end TradingConfig

/-- The pydantic model `EvolutionConfig` (Python ints as `Int`, floats as
exact rationals). -/
structure EvolutionConfig where
  population_size : Int
  generations : Int
  mutation_rate : Rat
  crossover_rate : Rat
  elite_count : Int
deriving DecidableEq

namespace EvolutionConfig

/-- The declared field defaults of `EvolutionConfig`
(`50`, `100`, `0.1`, `0.7`, `5`). -/
def defaults : EvolutionConfig :=
  ⟨50, 100, f0_1, f0_7, 5⟩

/-- Constructing an `EvolutionConfig` from field values.  The field
constraints are `gt=0` on `population_size` and `generations`,
`ge=0, le=1` on `mutation_rate` and `crossover_rate`, and `ge=0` on
`elite_count`; violations are collected into one `ValidationError`. -/
def validate (population_size generations : Int) (mutation_rate crossover_rate : Rat)
    (elite_count : Int) : Except (List String) EvolutionConfig :=
  let errs :=
    (if 0 < population_size then []
     else ["population_size: ensure this value is greater than 0"]) ++
    (if 0 < generations then []
     else ["generations: ensure this value is greater than 0"]) ++
    (if 0 ≤ mutation_rate ∧ mutation_rate ≤ 1 then []
     else ["mutation_rate: ensure this value is between 0 and 1"]) ++
    (if 0 ≤ crossover_rate ∧ crossover_rate ≤ 1 then []
     else ["crossover_rate: ensure this value is between 0 and 1"]) ++
    (if 0 ≤ elite_count then []
     else ["elite_count: ensure this value is greater than or equal to 0"])
  if errs.isEmpty then
    .ok ⟨population_size, generations, mutation_rate, crossover_rate, elite_count⟩
  else .error errs

end EvolutionConfig

/-! Building a pydantic model from a JSON section (`Model(**section)`):
each field takes the section's value when the key is present — coerced to
the field's type, an absent or uncoercible value being a validation
error — and the declared default otherwise.  Only the coercions the
program can exercise are modelled: a float field accepts an int, an int
field accepts an integral float. -/

/-- Read a `str` field from a JSON object's entries, with pydantic's
declared default for a missing key. -/
def getStrField (fs : List (String × JValue)) (k : String) (dflt : String) :
    Except (List String) String :=
  match fs.lookup k with
  | none => .ok dflt
  | some (.str s) => .ok s
  | some _ => .error [k ++ ": str type expected"]

/-- Read a `float` field (int values coerce) from a JSON object's entries,
with pydantic's declared default for a missing key. -/
def getFloatField (fs : List (String × JValue)) (k : String) (dflt : Rat) :
    Except (List String) Rat :=
  match fs.lookup k with
  | none => .ok dflt
  | some (.num q) => .ok q
  | some (.int n) => .ok (n : Rat)
  | some _ => .error [k ++ ": float type expected"]

/-- Read an `int` field (integral floats coerce) from a JSON object's
entries, with pydantic's declared default for a missing key. -/
def getIntField (fs : List (String × JValue)) (k : String) (dflt : Int) :
    Except (List String) Int :=
  match fs.lookup k with
  | none => .ok dflt
  | some (.int n) => .ok n
  | some (.num q) => if q.den = 1 then .ok q.num else .error [k ++ ": int type expected"]
  | some _ => .error [k ++ ": int type expected"]

/-- `TradingConfig(**section)`: field extraction followed by the model's
validation. -/
def TradingConfig.ofJValue (v : JValue) : Except (List String) TradingConfig :=
  match v with
  | .obj fs => do
      let e ← getStrField fs "exchange" "binance"
      let s ← getStrField fs "symbol" "BTC/USDT"
      let t ← getStrField fs "timeframe" "1h"
      let c ← getFloatField fs "initial_capital" 10000
      TradingConfig.validate e s t c
  | _ => .error ["value is not a valid dict"]

/-- `EvolutionConfig(**section)`: field extraction followed by the model's
validation. -/
def EvolutionConfig.ofJValue (v : JValue) : Except (List String) EvolutionConfig :=
  match v with
  | .obj fs => do
      let ps ← getIntField fs "population_size" 50
      let g ← getIntField fs "generations" 100
      let mr ← getFloatField fs "mutation_rate" f0_1
      let cr ← getFloatField fs "crossover_rate" f0_7
      let ec ← getIntField fs "elite_count" 5
      EvolutionConfig.validate ps g mr cr ec
  | _ => .error ["value is not a valid dict"]

/-- Look a key up in a JSON object (`d[k]` on the top level of the parsed
mapping); `none` on non-objects and missing keys. -/
def JValue.lookup : JValue → String → Option JValue
  | .obj fs, k => fs.lookup k
  | _, _ => none

/-! Concrete sample environments used by the witness theorems. -/

/-- A fresh `Config` state for a given path, as set up at the top of
`Config.__init__` (empty cache, Firebase not initialized). -/
def sampleSt (p : String) : ConfigState := ⟨p, .obj [], false⟩

/-- A world with no files at all, where writes succeed. -/
def sampleWEmpty : World := ⟨fun _ => none, fun _ => true, true⟩

/-- A sample well-formed configuration value. -/
def sampleV : JValue :=
  .obj [("trading", .obj [("exchange", .str "kraken")]), ("extra", .int 3)]

/-- A world where every path holds the well-formed file `sampleV`. -/
def sampleWFile : World := ⟨fun _ => some (.wellFormed sampleV), fun _ => true, true⟩

/-- A world where every path holds a malformed file. -/
def sampleWBad : World := ⟨fun _ => some .malformed, fun _ => true, true⟩

/-- A world with no files where writes fail. -/
def sampleWNoWrite : World := ⟨fun _ => none, fun _ => false, true⟩

/-- A world with no files where Firebase initialization fails. -/
def sampleWNoFb : World := ⟨fun _ => none, fun _ => true, false⟩

/-! ## Theorems -/

theorem f0_1_eq : f0_1 = 1/10 := by
  rw [f0_1, Rat.mk'_eq_divInt, Rat.divInt_eq_div]; norm_num

theorem f0_7_eq : f0_7 = 7/10 := by
  rw [f0_7, Rat.mk'_eq_divInt, Rat.divInt_eq_div]; norm_num

theorem f0_5_eq : f0_5 = 1/2 := by
  rw [f0_5, Rat.mk'_eq_divInt, Rat.divInt_eq_div]; norm_num

theorem f1_5_eq : f1_5 = 3/2 := by
  rw [f1_5, Rat.mk'_eq_divInt, Rat.divInt_eq_div]; norm_num

/-- `_create_default_config` always leaves the object state with the default
cache, whatever the write outcome. -/
theorem create_default_config_fst (w : World) (st : ConfigState) :
    (Config.create_default_config w st).1 =
      { st with config_cache := Config.defaultConfig } := by
  simp only [Config.create_default_config]
  split <;> rfl

/-- `_load_local_config` only writes the `_config_cache` field of the object
state: `config_path` and the Firebase flag are untouched. -/
theorem load_local_config_frame (w : World) (st : ConfigState) :
    (Config.load_local_config w st).1.config_path = st.config_path ∧
    (Config.load_local_config w st).1.firebase_ready = st.firebase_ready := by
  unfold Config.load_local_config Config.load_body
  cases hf : w.files st.config_path with
  | none =>
      simp [pure, Except.pure, create_default_config_fst]
  | some jf =>
      cases jf with
      | wellFormed v => simp [jsonLoad, bind, Except.bind, pure, Except.pure]
      | malformed => simp [jsonLoad, bind, Except.bind, create_default_config_fst]

/-- C1: if no file exists at `config_path`, `_load_local_config` caches the
hardcoded default mapping (with its trading, evolution and risk sections) and,
the write succeeding, persists exactly that mapping to `config_path`. -/
theorem load_missing_file_defaults (w : World) (st : ConfigState)
    (hmiss : w.files st.config_path = none) :
    (Config.load_local_config w st).1.config_cache = Config.defaultConfig ∧
    (w.writeOk st.config_path = true →
      (Config.load_local_config w st).2.files st.config_path =
        some (JFile.wellFormed Config.defaultConfig)) := by
  unfold Config.load_local_config Config.load_body Config.create_default_config
  rw [hmiss]
  constructor
  · cases hw : w.writeOk st.config_path <;> simp [pure, Except.pure, fileWrite, hw]
  · intro hw
    simp [pure, Except.pure, fileWrite, hw, World.setFile]

/-- Witness for C1 at the default path `"config.json"` in an empty world. -/
theorem load_missing_file_defaults_witness :
    (Config.load_local_config sampleWEmpty (sampleSt "config.json")).1.config_cache =
        Config.defaultConfig ∧
    (sampleWEmpty.writeOk "config.json" = true →
      (Config.load_local_config sampleWEmpty (sampleSt "config.json")).2.files "config.json" =
        some (JFile.wellFormed Config.defaultConfig)) :=
  load_missing_file_defaults sampleWEmpty (sampleSt "config.json") rfl

/-- C2: if the file at `config_path` exists and parses, `_load_local_config`
caches exactly the parsed value (and changes nothing else: no fields added,
removed, coerced or validated, file system untouched). -/
theorem load_wellformed_exact (w : World) (st : ConfigState) (v : JValue)
    (h : w.files st.config_path = some (JFile.wellFormed v)) :
    Config.load_local_config w st = ({ st with config_cache := v }, w) := by
  unfold Config.load_local_config Config.load_body
  rw [h]
  simp [jsonLoad, bind, Except.bind, pure, Except.pure]

/-- Witness for C2 on a world holding the sample configuration file. -/
theorem load_wellformed_exact_witness :
    Config.load_local_config sampleWFile (sampleSt "config.json") =
      ({ sampleSt "config.json" with config_cache := sampleV }, sampleWFile) :=
  load_wellformed_exact sampleWFile (sampleSt "config.json") sampleV rfl

/-- C3: on a malformed (unparsable) file the `try` body of
`_load_local_config` raises, the exception is caught rather than propagated,
and the cache is replaced by the hardcoded defaults. -/
theorem load_malformed_caught_defaults (w : World) (st : ConfigState)
    (h : w.files st.config_path = some JFile.malformed) :
    Config.load_body w st = .error () ∧
    (Config.load_local_config w st).1.config_cache = Config.defaultConfig := by
  have hb : Config.load_body w st = .error () := by
    unfold Config.load_body
    rw [h]
    simp [jsonLoad, bind, Except.bind]
  refine ⟨hb, ?_⟩
  unfold Config.load_local_config
  rw [hb]
  simp [create_default_config_fst]

/-- Witness for C3 on a world holding a malformed file. -/
theorem load_malformed_caught_defaults_witness :
    Config.load_body sampleWBad (sampleSt "config.json") = .error () ∧
    (Config.load_local_config sampleWBad (sampleSt "config.json")).1.config_cache =
      Config.defaultConfig :=
  load_malformed_caught_defaults sampleWBad (sampleSt "config.json") rfl

/-- C4: building a `TradingConfig` reports a validation error exactly when
the exchange is outside the allow-list or `initial_capital` is not strictly
positive; every input meeting both constraints constructs successfully. -/
theorem tradingConfig_validation_iff (e s t : String) (c : Rat) :
    ((∃ tc, TradingConfig.validate e s t c = .ok tc) ↔
        e ∈ TradingConfig.valid_exchanges ∧ 0 < c) ∧
    ((∃ errs, TradingConfig.validate e s t c = .error errs) ↔
        ¬(e ∈ TradingConfig.valid_exchanges ∧ 0 < c)) := by
  unfold TradingConfig.validate
  by_cases h1 : e ∈ TradingConfig.valid_exchanges <;> by_cases h2 : 0 < c <;>
    simp [h1, h2]

/-- C5: `EvolutionConfig` with `mutation_rate = 1.5` (other fields at their
defaults) reports a validation error, with `mutation_rate = 0.5` it
constructs, and in general construction succeeds exactly when
`population_size > 0`, `generations > 0`, the two rates lie in `[0, 1]`
and `elite_count ≥ 0`. -/
theorem evolutionConfig_validation_spec :
    EvolutionConfig.validate 50 100 f1_5 f0_7 5 =
        .error ["mutation_rate: ensure this value is between 0 and 1"] ∧
    EvolutionConfig.validate 50 100 f0_5 f0_7 5 =
        .ok ⟨50, 100, f0_5, f0_7, 5⟩ ∧
    ∀ (ps g : Int) (mr cr : Rat) (ec : Int),
      (∃ ev, EvolutionConfig.validate ps g mr cr ec = .ok ev) ↔
        0 < ps ∧ 0 < g ∧ 0 ≤ mr ∧ mr ≤ 1 ∧ 0 ≤ cr ∧ cr ≤ 1 ∧ 0 ≤ ec := by
  refine ⟨rfl, rfl, ?_⟩
  intro ps g mr cr ec
  unfold EvolutionConfig.validate
  by_cases h1 : 0 < ps <;> by_cases h2 : 0 < g <;>
    by_cases h3 : 0 ≤ mr ∧ mr ≤ 1 <;> by_cases h4 : 0 ≤ cr ∧ cr ≤ 1 <;>
      by_cases h5 : 0 ≤ ec <;> simp [h1, h2, h3, h4, h5]

/-- C6: constructing a `Config` with no credentials path, or with one that
names no existing file, never calls `_init_firebase` and ends
remote-disconnected (the Firebase flag stays `False`), without throwing. -/
theorem init_missing_creds_disconnected (cp : String) (creds : Option String)
    (w : World)
    (h : creds = none ∨ ∃ p, creds = some p ∧
        (Config.load_local_config w ⟨cp, JValue.obj [], false⟩).2.files p = none) :
    (Config.init cp creds w).1.firebase_ready = false ∧
    (Config.init cp creds w).2.2 = false := by
  unfold Config.init
  rcases h with h | ⟨p, hp, hfile⟩
  · subst h
    simp [(load_local_config_frame w ⟨cp, JValue.obj [], false⟩).2]
  · subst hp
    simp [World.pathExists, hfile,
      (load_local_config_frame w ⟨cp, JValue.obj [], false⟩).2]

/-- Witness for C6: a nonexistent credentials path in a world with no
files. -/
theorem init_missing_creds_disconnected_witness :
    (Config.init "config.json" (some "creds.json") sampleWNoWrite).1.firebase_ready =
        false ∧
    (Config.init "config.json" (some "creds.json") sampleWNoWrite).2.2 = false :=
  init_missing_creds_disconnected "config.json" (some "creds.json") sampleWNoWrite
    (Or.inr ⟨"creds.json", rfl, rfl⟩)

/-- C7: when Firebase setup fails, `_init_firebase` catches the exception
(the `try` body raises, the method still returns) and records
`_firebase_initialized = False`. -/
theorem init_firebase_failure_caught (p : String) (w : World) (st : ConfigState)
    (h : w.firebaseOk = false) :
    Config.init_firebase_body w = .error () ∧
    Config.init_firebase p w st = { st with firebase_ready := false } := by
  unfold Config.init_firebase Config.init_firebase_body
  simp [h]

/-- Witness for C7 in a world whose Firebase setup fails. -/
theorem init_firebase_failure_caught_witness :
    Config.init_firebase_body sampleWNoFb = .error () ∧
    Config.init_firebase "creds.json" sampleWNoFb (sampleSt "config.json") =
      { sampleSt "config.json" with firebase_ready := false } :=
  init_firebase_failure_caught "creds.json" sampleWNoFb (sampleSt "config.json") rfl

/-- C8: when saving the defaults fails, `_create_default_config` catches the
exception and returns with the in-memory cache still equal to the default
mapping and the file system unchanged. -/
theorem create_default_write_failure (w : World) (st : ConfigState)
    (h : w.writeOk st.config_path = false) :
    Config.create_default_config w st =
      ({ st with config_cache := Config.defaultConfig }, w) := by
  simp only [Config.create_default_config]
  simp [fileWrite, h]

/-- Witness for C8 in a world where writes fail. -/
theorem create_default_write_failure_witness :
    Config.create_default_config sampleWNoWrite (sampleSt "config.json") =
      ({ sampleSt "config.json" with config_cache := Config.defaultConfig },
        sampleWNoWrite) :=
  create_default_write_failure sampleWNoWrite (sampleSt "config.json") rfl

/-- C9: `_init_firebase` never touches `_config_cache` or `config_path`,
whether it succeeds or fails: the remote state is orthogonal to the loaded
configuration. -/
theorem init_firebase_frame (p : String) (w : World) (st : ConfigState) :
    (Config.init_firebase p w st).config_cache = st.config_cache ∧
    (Config.init_firebase p w st).config_path = st.config_path := by
  unfold Config.init_firebase
  split <;> exact ⟨rfl, rfl⟩

/-- C10: the hardcoded default mapping agrees with the declarative schemas:
its `"trading"` section builds a `TradingConfig` equal to the declared field
defaults, and its `"evolution"` section builds an `EvolutionConfig` equal to
the declared field defaults. -/
theorem default_config_matches_schemas :
    Config.defaultConfig.lookup "trading" = some Config.defaultTrading ∧
    Config.defaultConfig.lookup "evolution" = some Config.defaultEvolution ∧
    TradingConfig.ofJValue Config.defaultTrading = .ok TradingConfig.defaults ∧
    EvolutionConfig.ofJValue Config.defaultEvolution = .ok EvolutionConfig.defaults :=
  ⟨rfl, rfl, rfl, rfl⟩
